import Mathlib

/-!
Verification development for the CatLearn tutorial notebooks.

The repository consists of two Jupyter notebooks:
* an ML-NEB tutorial (`src/unnamed/part_000`) that builds an Al(100) slab,
  relaxes the two end-points with BFGS, and drives the external
  `catlearn.optimize.mlneb.MLNEB` class, and
* a k-fold cross-validation tutorial
  (`src/tutorials/07_cross_validation/k_fold_cv.ipynb`) that splits data with
  the external `k_fold` utility and runs a Gaussian-process prediction over
  each fold.

We embed the notebooks at two levels:
1. a syntactic embedding of every code cell as a list of operations (`Op`),
   recording each library invocation, its keyword arguments and its file
   effects, so that claims about the parameters passed, the order of calls,
   the files touched and the absence of exception handlers are decidable;
2. a functional embedding of the cross-validation loop (cell 11 of
   `k_fold_cv.ipynb`) and of the averaged-error computation (cell 13),
   faithful to Python list `copy`/`pop`/`np.concatenate` semantics, with the
   Gaussian-process error treated as an abstract oracle.
-/

/-- Python values appearing as arguments in the notebooks.  Float literals in
the notebooks are exact decimal literals, embedded as a mantissa and a power
of ten: `float m e` is the source literal `m × 10^(-e)`, so `0.05` is
`float 5 2` and `1.7` is `float 17 1`.  Object references (the ASE
calculator, the slab, the mask list) are embedded by name. -/
inductive Value where
  | str (s : String)
  | int (n : Int)
  | float (mant : Int) (exp10 : Nat)
  | bool (b : Bool)
  | ref (name : String)
  | intTuple (l : List Int)
  deriving DecidableEq

/-- Whether a file effect reads, writes or removes the file. -/
inductive FileMode where
  | read
  | write
  | remove
  deriving DecidableEq

/-- A single file effect of an operation: the path as it appears in the
notebook and the access mode. -/
structure FileEffect where
  path : String
  mode : FileMode
  deriving DecidableEq

/-- One operation authored in a notebook code cell.

`libCall fn args kwargs files` is an invocation of a library function or
method: `fn` names it, `args` are the positional arguments, `kwargs` the
keyword arguments in source order, and `files` the file effects the call
performs (those the notebook's own text attributes to it included).

`tryExceptOp` represents a Python `try`/`except` block; it is expressible so
that its absence from the notebooks is a statement about the source, not an
artifact of the grammar.  Likewise `defGpPredict` (the authored `gp_predict`
wrapper function), `cvFoldLoop` (the authored per-fold train/test composition
loop, whose functional semantics is `cvRun` below), `mutateAtom` (the
authored coordinate update `slab[-1].x += slab.get_cell()[0, 0] / 2`) and
`assignOp` (plain variable assignments, including the constraint-mask list
comprehension) record the non-call statements of the cells. -/
inductive Op where
  | importOp (module : String) (names : List String)
  | assignOp (lhs : String) (rhs : String)
  | libCall (fn : String) (args : List Value) (kwargs : List (String × Value))
      (files : List FileEffect)
  | mutateAtom
  | defGpPredict
  | cvFoldLoop
  | plotCall (fn : String)
  | printCall
  | tryExceptOp
  deriving DecidableEq

/-- The code cells of the ML-NEB notebook (`src/unnamed/part_000`), in
execution order.  Keyword arguments are transcribed verbatim; file effects of
the external calls are those stated by the notebook itself (the BFGS
`trajectory` argument, the `MLNEB` `start`/`end`/`restart` arguments, the
`run` `trajectory` argument, and the markdown cells at lines 226 and 304
naming `results_neb.csv`, `results_neb_interpolation.csv` and
`evaluated_structures.traj`). -/
def mlnebNotebook : List Op := [
  -- cell: from ase.calculators.emt import EMT ; ase_calculator = EMT()
  Op.importOp ("ase.calculators.emt") ["EMT"],
  Op.libCall ("EMT") [] [] [],
  Op.assignOp ("ase_calculator") ("EMT()"),
  -- cell: slab construction
  Op.importOp ("ase.build") ["fcc100", "add_adsorbate"],
  Op.importOp ("ase.constraints") ["FixAtoms"],
  Op.libCall ("fcc100") [Value.str ("Al")] [("size", Value.intTuple [2, 2, 3])] [],
  Op.libCall ("add_adsorbate")
    [Value.ref ("slab"), Value.str ("Au"), Value.float 17 1, Value.str ("hollow")] [] [],
  Op.libCall ("slab.center") [] [("axis", Value.int 2), ("vacuum", Value.float 40 1)] [],
  Op.assignOp ("mask") ("[atom.tag > 1 for atom in slab]"),
  Op.libCall ("FixAtoms") [] [("mask", Value.ref ("mask"))] [],
  Op.libCall ("slab.set_constraint") [Value.ref ("constraint")] [] [],
  -- cell: slab.set_calculator(ase_calculator)
  Op.libCall ("slab.set_calculator") [Value.ref ("ase_calculator")] [] [],
  -- cell: BFGS optimization of both end-points
  Op.importOp ("ase.optimize") ["BFGS"],
  Op.libCall ("BFGS") [Value.ref ("slab")]
    [("trajectory", Value.str ("initial.traj"))] [],
  Op.libCall ("qn.run") [] [("fmax", Value.float 1 2)]
    [⟨"initial.traj", FileMode.write⟩],
  Op.mutateAtom,
  Op.libCall ("BFGS") [Value.ref ("slab")]
    [("trajectory", Value.str ("final.traj"))] [],
  Op.libCall ("qn.run") [] [("fmax", Value.float 1 2)]
    [⟨"final.traj", FileMode.write⟩],
  -- cell: first MLNEB run (lines 183-191)
  Op.importOp ("catlearn.optimize.mlneb") ["MLNEB"],
  Op.libCall ("MLNEB") []
    [("start", Value.str ("initial.traj")),
     ("end", Value.str ("final.traj")),
     ("ase_calc", Value.ref ("ase_calculator")),
     ("n_images", Value.int 7),
     ("interpolation", Value.str ("idpp")),
     ("restart", Value.bool false)]
    [⟨"initial.traj", FileMode.read⟩, ⟨"final.traj", FileMode.read⟩],
  Op.libCall ("MLNEB.run") []
    [("fmax", Value.float 5 2), ("trajectory", Value.str ("ML-NEB.traj"))]
    [⟨"ML-NEB.traj", FileMode.write⟩,
     ⟨"results_neb.csv", FileMode.write⟩,
     ⟨"results_neb_interpolation.csv", FileMode.write⟩,
     ⟨"evaluated_structures.traj", FileMode.write⟩],
  -- cell: plotneb (lines 242-243)
  Op.importOp ("catlearn.optimize.tools") ["plotneb"],
  Op.plotCall ("plotneb"),
  -- cell: fresh run capped at 5 steps (lines 290-297)
  Op.libCall ("MLNEB") []
    [("start", Value.str ("initial.traj")),
     ("end", Value.str ("final.traj")),
     ("ase_calc", Value.ref ("ase_calculator")),
     ("n_images", Value.int 7),
     ("interpolation", Value.str ("idpp")),
     ("restart", Value.bool false)]
    [⟨"initial.traj", FileMode.read⟩, ⟨"final.traj", FileMode.read⟩],
  Op.libCall ("MLNEB.run") []
    [("fmax", Value.float 5 2), ("trajectory", Value.str ("ML-NEB.traj")),
     ("steps", Value.int 5)]
    [⟨"ML-NEB.traj", FileMode.write⟩,
     ⟨"results_neb.csv", FileMode.write⟩,
     ⟨"results_neb_interpolation.csv", FileMode.write⟩,
     ⟨"evaluated_structures.traj", FileMode.write⟩],
  -- cell: restart from evaluated_structures.traj (lines 318-324)
  Op.libCall ("MLNEB") []
    [("start", Value.str ("initial.traj")),
     ("end", Value.str ("final.traj")),
     ("ase_calc", Value.ref ("ase_calculator")),
     ("n_images", Value.int 7),
     ("interpolation", Value.str ("idpp")),
     ("restart", Value.bool true)]
    [⟨"initial.traj", FileMode.read⟩, ⟨"final.traj", FileMode.read⟩,
     ⟨"evaluated_structures.traj", FileMode.read⟩],
  Op.libCall ("MLNEB.run") []
    [("fmax", Value.float 5 2), ("trajectory", Value.str ("ML-NEB.traj"))]
    [⟨"ML-NEB.traj", FileMode.write⟩,
     ⟨"results_neb.csv", FileMode.write⟩,
     ⟨"results_neb_interpolation.csv", FileMode.write⟩,
     ⟨"evaluated_structures.traj", FileMode.write⟩],
  -- cell: restart with more images and tighter convergence (lines 342-348)
  Op.libCall ("MLNEB") []
    [("start", Value.str ("initial.traj")),
     ("end", Value.str ("final.traj")),
     ("ase_calc", Value.ref ("ase_calculator")),
     ("n_images", Value.int 21),
     ("interpolation", Value.str ("idpp")),
     ("restart", Value.bool true)]
    [⟨"initial.traj", FileMode.read⟩, ⟨"final.traj", FileMode.read⟩,
     ⟨"evaluated_structures.traj", FileMode.read⟩],
  Op.libCall ("MLNEB.run") []
    [("fmax", Value.float 2 2), ("unc_convergence", Value.float 25 3),
     ("trajectory", Value.str ("ML-NEB.traj"))]
    [⟨"ML-NEB.traj", FileMode.write⟩,
     ⟨"results_neb.csv", FileMode.write⟩,
     ⟨"results_neb_interpolation.csv", FileMode.write⟩,
     ⟨"evaluated_structures.traj", FileMode.write⟩],
  -- cell: final plot
  Op.plotCall ("plotneb")
]

/-- The code cells of the cross-validation notebook
(`src/tutorials/07_cross_validation/k_fold_cv.ipynb`), in execution order. -/
def cvNotebook : List Op := [
  -- cell 1: imports
  Op.importOp ("os") [],
  Op.importOp ("numpy") [],
  Op.importOp ("matplotlib.pyplot") [],
  Op.importOp ("ase.ga.data") ["DataConnection"],
  Op.importOp ("catlearn.featurize.setup") ["FeatureGenerator"],
  Op.importOp ("catlearn.cross_validation") ["k_fold"],
  Op.importOp ("catlearn.cross_validation.k_fold_cv") ["write_split", "read_split"],
  Op.importOp ("catlearn.regression") ["RidgeRegression", "GaussianProcess"],
  Op.importOp ("catlearn.regression.cost_function") ["get_error"],
  -- cell 3: load data from the ase-db and featurize
  Op.libCall ("DataConnection") [Value.str ("../../data/gadb.db")] []
    [⟨"../../data/gadb.db", FileMode.read⟩],
  Op.libCall ("gadb.get_all_relaxed_candidates") []
    [("use_extinct", Value.bool false)] [],
  Op.printCall,
  Op.libCall ("FeatureGenerator") [] [] [],
  Op.libCall ("fgen.return_vec") [Value.ref ("all_cand"), Value.ref ("fgen.eigenspectrum_vec")] [] [],
  Op.printCall,
  Op.assignOp ("targets") ("[a.info raw_score for a in all_cand]"),
  Op.printCall,
  -- cell 5: split into k folds
  Op.libCall ("k_fold") []
    [("features", Value.ref ("features")), ("targets", Value.ref ("targets")),
     ("nsplit", Value.int 5)] [],
  Op.printCall,
  Op.printCall,
  -- cell 7: serialize and re-read the split
  Op.libCall ("write_split") []
    [("features", Value.ref ("fsplit")), ("targets", Value.ref ("tsplit")),
     ("fname", Value.str ("kfoldSave")), ("fformat", Value.str ("json"))]
    [⟨"kfoldSave.json", FileMode.write⟩],
  Op.libCall ("read_split") []
    [("fname", Value.str ("kfoldSave")), ("fformat", Value.str ("json"))]
    [⟨"kfoldSave.json", FileMode.read⟩],
  -- cell 9: the authored gp_predict wrapper
  Op.defGpPredict,
  -- cell 11: the authored per-fold train/test composition loop
  Op.cvFoldLoop,
  -- cell 13: plot and print the averaged error
  Op.plotCall ("plt.plot"),
  Op.printCall,
  -- cell 15: clean up the saved split
  Op.libCall ("os.remove") [Value.str ("kfoldSave.json")] []
    [⟨"kfoldSave.json", FileMode.remove⟩],
  -- cell 16: show the figure
  Op.plotCall ("plt.show")
]

/-- All operations authored in the repository, in notebook order. -/
def allOps : List Op := mlnebNotebook ++ cvNotebook

/-- The keyword-argument lists of the `MLNEB(...)` constructor invocations of
an operation list, in order. -/
def mlnebCallsIn (ops : List Op) : List (List (String × Value)) :=
  ops.filterMap fun o =>
    match o with
    | Op.libCall fn _ kwargs _ => if fn == "MLNEB" then some kwargs else none
    | _ => none

/-- The keyword-argument lists of the `.run(...)` invocations on `MLNEB`
instances, in order. -/
def runCallsIn (ops : List Op) : List (List (String × Value)) :=
  ops.filterMap fun o =>
    match o with
    | Op.libCall fn _ kwargs _ => if fn == "MLNEB.run" then some kwargs else none
    | _ => none

/-- The file effects of one operation. -/
def fileEffectsOf : Op → List FileEffect
  | Op.libCall _ _ _ files => files
  | _ => []

/-- Every file effect of both notebooks. -/
def allFileEffects : List FileEffect :=
  (allOps.map fileEffectsOf).flatten

/-- Whether an operation is a `try`/`except` exception handler. -/
def isTryExceptOp : Op → Bool
  | Op.tryExceptOp => true
  | _ => false

/-!
## Functional embedding of the cross-validation loop

Cell 11 of `k_fold_cv.ipynb`:
```
x, y = list(range(len(fsplit))), []
for index in x:
    fcopy, tcopy = fsplit.copy(), tsplit.copy()
    ftest, ttest = fcopy.pop(index), tcopy.pop(index)
    fcopy = np.concatenate(fcopy, axis=0)
    tcopy = np.concatenate(tcopy, axis=0)
    y.append(gp_predict(fcopy, tcopy, ftest, ttest)['result'])
```
`fsplit` is a list of feature matrices (each a list of rows of type `α`) and
`tsplit` a list of target vectors (each a list of values of type `β`).
`list.copy()` is a shallow copy, so popping from the copy leaves the original
untouched; `list.pop(i)` returns the `i`-th element and removes it, raising
`IndexError` when `i` is out of range (embedded as `none`);
`np.concatenate(_, axis=0)` concatenates the remaining blocks in order.  The
Gaussian-process prediction `gp_predict(...)['result']` is an abstract error
oracle `err` taking train features, train targets, test features and test
targets.
-/

/-- Python `list.pop(i)` for a non-negative index: the `i`-th element together
with the list with that element removed, or `none` (an `IndexError`) when the
index is out of range. -/
def listPop (l : List α) (i : Nat) : Option (α × List α) :=
  match l.get? i with
  | some v => some (v, l.eraseIdx i)
  | none => none

/-- The mutable state of the cross-validation cell: the two split lists and
the accumulated per-fold errors `y`. -/
structure CVState (α β γ : Type) where
  fsplit : List (List α)
  tsplit : List (List β)
  y : List γ
  deriving DecidableEq

/-- One iteration of the loop body at index `i`: pop the test fold from
shallow copies of the splits, concatenate the remaining folds into the
training set, and append the oracle's error to `y`.  `none` embeds the
`IndexError` Python would raise on an out-of-range pop. -/
def cvStep (err : List α → List β → List α → List β → γ)
    (i : Nat) (st : CVState α β γ) : Option (CVState α β γ) :=
  (listPop st.fsplit i).bind fun fp =>
    (listPop st.tsplit i).map fun tp =>
      { st with y := st.y ++ [err fp.2.flatten tp.2.flatten fp.1 tp.1] }

/-- The whole loop: iterate `cvStep` over `x = list(range(len(fsplit)))`,
starting from `y = []`. -/
def cvRun (err : List α → List β → List α → List β → γ)
    (fsplit : List (List α)) (tsplit : List (List β)) :
    Option (CVState α β γ) :=
  (List.range fsplit.length).foldl
    (fun acc i => acc.bind (cvStep err i))
    (some ⟨fsplit, tsplit, []⟩)

/-- Cell 13's `sum(y)/float(len(y))`, the printed averaged error. -/
def averagedError (y : List ℚ) : ℚ :=
  y.sum / (y.length : ℚ)

/-!
## Definitions for the claim statements
-/

/-- Python's `str.endswith`, over the character list of the string. -/
def hasSuffix (s suf : String) : Bool :=
  List.isSuffixOf suf.data s.data

/-- The keyword names of a keyword-argument list, in source order. -/
def kwargKeys (kw : List (String × Value)) : List String :=
  kw.map Prod.fst

/-- The keyword-parameter names the spec attributes to `MLNEB(...)`:
start/end trajectory file paths, number of images, interpolation mode,
restart flag. -/
def claimedMLNEBKeys : List String :=
  ["start", "end", "n_images", "interpolation", "restart"]

/-- The keyword-parameter names the spec attributes to `.run(...)`. -/
def runKeys : List String :=
  ["fmax", "steps", "unc_convergence", "trajectory"]

/-- Two key lists name the same set of keywords. -/
def sameKeySet (ks ls : List String) : Bool :=
  ks.all (fun k => ls.contains k) && ls.all (fun k => ks.contains k)

/-- Claim C1 as stated, as a decidable check over the embedding: every
`MLNEB(...)` invocation passes exactly the claimed keywords, and every
`.run(...)` invocation draws its keywords from `runKeys`. -/
def claimC1check : Bool :=
  ((mlnebCallsIn allOps).all fun kw => sameKeySet (kwargKeys kw) claimedMLNEBKeys)
  && ((runCallsIn allOps).all fun kw => (kwargKeys kw).all fun k => runKeys.contains k)

/-- The operation categories claim C2 allows: imports, library calls carrying
configuration parameters, and plotting/printing.  This reading is generous to
the claim: every library invocation counts as parameter-setting glue. -/
def claimC2Category : Op → Bool
  | Op.importOp _ _ => true
  | Op.libCall _ _ _ _ => true
  | Op.plotCall _ => true
  | Op.printCall => true
  | _ => false

/-- The operations that author algorithmic logic rather than configure,
import, assign or plot: the `gp_predict` wrapper definition and the per-fold
train/test composition loop. -/
def isAuthoredAlgorithm : Op → Bool
  | Op.defGpPredict => true
  | Op.cvFoldLoop => true
  | _ => false

/-- Whether an MLNEB invocation restricts its `restart` keyword to the MLNEB
constructor: any other call must not carry a `restart` keyword at all. -/
def restartKeyOnlyInMLNEB : Op → Bool
  | Op.libCall fn _ kwargs _ =>
      (kwargs.all fun p => p.1 != "restart") || fn == "MLNEB"
  | _ => true

/-- Whether each `MLNEB(...)` invocation is a resume of a previous run,
read off the notebook's markdown: the two invocations of section 1 and the
capped run of section 3 (`part_000` lines 185, 290) are fresh runs, while the
invocations at lines 318 and 342 follow the instructions "select
restart=True in the MLNEB class" (line 307) and "re-run (restart) the
calculation" (line 331). -/
def restartTags : List Bool := [false, false, true, true]

/-- Claim C5's allowed file artifacts: `.traj` trajectory files,
`results_neb.csv`, and the JSON-serialized k-fold split. -/
def isClaimedArtifact (p : String) : Bool :=
  hasSuffix p (".traj") || p == "results_neb.csv" || p == "kfoldSave.json"

/-- Claim C5 as stated: every file effect of the notebooks touches a claimed
artifact. -/
def claimC5check : Bool :=
  allFileEffects.all fun e => isClaimedArtifact e.path

/-- The allowed artifacts after amendment: the claimed ones plus the ase-db
database the cross-validation notebook reads and the interpolation CSV the
ML-NEB notebook documents as written alongside `results_neb.csv`. -/
def amendedArtifact (p : String) : Bool :=
  isClaimedArtifact p || p == "../../data/gadb.db"
    || p == "results_neb_interpolation.csv"

/-- The `MLNEB(...)` constructor invocations. -/
def isMLNEBConstruct : Op → Bool
  | Op.libCall fn _ _ _ => fn == "MLNEB"
  | _ => false

/-- The `.run(...)` invocations on MLNEB instances. -/
def isMLNEBRun : Op → Bool
  | Op.libCall fn _ _ _ => fn == "MLNEB.run"
  | _ => false

/-- The BFGS relaxation runs (`qn.run`). -/
def isBFGSRun : Op → Bool
  | Op.libCall fn _ _ _ => fn == "qn.run"
  | _ => false

/-- The slab construction call (`fcc100`). -/
def isSlabBuild : Op → Bool
  | Op.libCall fn _ _ _ => fn == "fcc100"
  | _ => false

/-- The `plotneb` invocations. -/
def isPlotNeb : Op → Bool
  | Op.plotCall fn => fn == "plotneb"
  | _ => false

/-- Whether an operation writes the given path. -/
def writesPath (p : String) (o : Op) : Bool :=
  (fileEffectsOf o).any fun e => e.path == p && decide (e.mode = FileMode.write)

/-- The positions of the operations satisfying `p`, in order. -/
def opIdxs (p : Op → Bool) (ops : List Op) : List Nat :=
  (ops.enum.filter fun e => p e.2).map Prod.fst

/-- Every position of the first list precedes every position of the second. -/
def allBefore (ps qs : List Nat) : Bool :=
  ps.all fun i => qs.all fun j => decide (i < j)

/-- The keyword arguments and file effects of the BFGS relaxation runs, in
order. -/
def bfgsRunData (ops : List Op) : List (List (String × Value) × List FileEffect) :=
  ops.filterMap fun o =>
    match o with
    | Op.libCall fn _ kw fs => if fn == "qn.run" then some (kw, fs) else none
    | _ => none

/-!
## Helper lemmas
-/

theorem listPop_eq_get (l : List α) (i : Nat) (h : i < l.length) :
    listPop l i = some (l.get ⟨i, h⟩, l.eraseIdx i) := by
  unfold listPop
  rw [List.get?_eq_get h]

theorem sum_eraseIdx_add_get (l : List ℕ) (i : Nat) (h : i < l.length) :
    (l.eraseIdx i).sum + l.get ⟨i, h⟩ = l.sum := by
  induction l generalizing i with
  | nil => simp at h
  | cons a t ih =>
    cases i with
    | zero => simp [Nat.add_comm]
    | succ j =>
      have hj : j < t.length := Nat.lt_of_succ_lt_succ h
      have h2 := ih j hj
      have h3 : (a :: t).get ⟨j + 1, h⟩ = t.get ⟨j, hj⟩ := rfl
      simp only [List.eraseIdx_cons_succ, List.sum_cons, h3]
      omega

theorem map_eraseIdx_comm (f : α → β) (l : List α) (i : Nat) :
    (l.eraseIdx i).map f = (l.map f).eraseIdx i := by
  induction l generalizing i with
  | nil => simp
  | cons a t ih =>
    cases i with
    | zero => simp
    | succ j => simp [ih]

theorem length_flatten_eraseIdx (l : List (List α)) (i : Nat) (h : i < l.length) :
    ((l.eraseIdx i).flatten).length = l.flatten.length - (l.get ⟨i, h⟩).length := by
  have hm : i < (l.map List.length).length := by simpa using h
  have key := sum_eraseIdx_add_get (l.map List.length) i hm
  rw [← map_eraseIdx_comm] at key
  have hg : (l.map List.length).get ⟨i, hm⟩ = (l.get ⟨i, h⟩).length := by
    simp
  rw [hg] at key
  rw [List.length_flatten, List.length_flatten]
  omega

theorem map_getD_range (l : List α) (d : α) :
    (List.range l.length).map (fun j => l.getD j d) = l := by
  induction l with
  | nil => simp
  | cons a t ih =>
    rw [List.length_cons, List.range_succ_eq_map, List.map_cons, List.map_map]
    have hc : ((fun j => (a :: t).getD j d) ∘ Nat.succ) = fun j => t.getD j d := rfl
    rw [hc, ih]
    rfl

theorem cvStep_eq (err : List α → List β → List α → List β → γ) (i : Nat)
    (st : CVState α β γ) (hf : i < st.fsplit.length) (ht : i < st.tsplit.length) :
    cvStep err i st = some { st with
      y := st.y ++ [err ((st.fsplit.eraseIdx i).flatten) ((st.tsplit.eraseIdx i).flatten)
        (st.fsplit.get ⟨i, hf⟩) (st.tsplit.get ⟨i, ht⟩)] } := by
  rw [cvStep, listPop_eq_get st.fsplit i hf, listPop_eq_get st.tsplit i ht]
  rfl

theorem cvStep_some_inv (err : List α → List β → List α → List β → γ) (i : Nat)
    (st st' : CVState α β γ) (h : cvStep err i st = some st') :
    st'.fsplit = st.fsplit ∧ st'.tsplit = st.tsplit
      ∧ st'.y.length = st.y.length + 1 := by
  rw [cvStep, Option.bind_eq_some] at h
  obtain ⟨fp, hfp, h⟩ := h
  rw [Option.map_eq_some'] at h
  obtain ⟨tp, htp, h⟩ := h
  subst h
  simp

theorem cvFoldBind_none (err : List α → List β → List α → List β → γ)
    (idxs : List Nat) :
    idxs.foldl (fun acc i => acc.bind (cvStep err i)) none = none := by
  induction idxs with
  | nil => rfl
  | cons i rest ih => simpa using ih

theorem cvFoldBind_some_inv (err : List α → List β → List α → List β → γ)
    (idxs : List Nat) (st st' : CVState α β γ)
    (h : idxs.foldl (fun acc i => acc.bind (cvStep err i)) (some st) = some st') :
    st'.fsplit = st.fsplit ∧ st'.tsplit = st.tsplit
      ∧ st'.y.length = st.y.length + idxs.length := by
  induction idxs generalizing st with
  | nil =>
    simp at h
    subst h
    simp
  | cons i rest ih =>
    rw [List.foldl_cons] at h
    cases hstep : cvStep err i st with
    | none =>
      rw [Option.some_bind, hstep, cvFoldBind_none] at h
      cases h
    | some st1 =>
      rw [Option.some_bind, hstep] at h
      obtain ⟨h1, h2, h3⟩ := ih st1 h
      obtain ⟨g1, g2, g3⟩ := cvStep_some_inv err i st st1 hstep
      refine ⟨h1.trans g1, h2.trans g2, ?_⟩
      rw [h3, g3, List.length_cons]
      omega

/-!
## Claim theorems
-/

/-- Claim C1, counterexample: the claim that the keyword parameters passed
into `MLNEB(...)` are exactly the start/end paths, number of images,
interpolation mode and restart flag fails on the code, because every
invocation also passes the calculator as the keyword `ase_calc`, which is
not among the claimed keywords. -/
theorem mlneb_kwargs_exactly_claimed_false :
    claimC1check = false
    ∧ ("ase_calc", Value.ref ("ase_calculator")) ∈ (mlnebCallsIn allOps).getD 0 []
    ∧ claimedMLNEBKeys.contains ("ase_calc") = false := by
  decide

/-- Claim C1, amended: every `MLNEB(...)` invocation authored in the
notebooks passes exactly the keywords start, end, ase_calc, n_images,
interpolation and restart (in that order), and every `.run(...)` invocation
draws its keywords exactly from fmax, steps, unc_convergence and
trajectory. -/
theorem mlneb_kwargs_amended :
    ((mlnebCallsIn allOps).all fun kw =>
        kwargKeys kw == ["start", "end", "ase_calc", "n_images", "interpolation", "restart"]) = true
    ∧ ((runCallsIn allOps).all fun kw =>
        (kwargKeys kw).all fun k => runKeys.contains k) = true
    ∧ (mlnebCallsIn allOps).length = 4
    ∧ (runCallsIn allOps).length = 4 := by
  decide

/-- Claim C3: the restart logic authored in the notebooks is exactly the
boolean `restart` flag of the `MLNEB` constructor: every invocation carries
the flag exactly once, its value is `true` precisely at the two invocations
the notebook's restart instructions mark as resuming runs and `false` at the
fresh runs, the `restart` keyword occurs in no other call, and no exception
handler or other recovery mechanism is authored. -/
theorem restart_logic_is_flag_toggle :
    (mlnebCallsIn allOps).length = restartTags.length
    ∧ (((mlnebCallsIn allOps).zip restartTags).all fun p =>
        decide (("restart", Value.bool p.2) ∈ p.1)) = true
    ∧ ((mlnebCallsIn allOps).all fun kw =>
        (kwargKeys kw).count ("restart") == 1) = true
    ∧ (allOps.all restartKeyOnlyInMLNEB) = true
    ∧ (allOps.all fun o => !isTryExceptOp o) = true := by
  decide

/-- Claim C6: no error-handling, retry or recovery logic is authored in the
notebooks: no operation of either notebook is a `try`/`except` exception
handler, so an exception raised by a library call propagates uncaught. -/
theorem no_exception_handlers :
    (allOps.all fun o => !isTryExceptOp o) = true
    ∧ allOps.length = mlnebNotebook.length + cvNotebook.length := by
  decide

/-- Claim C2, counterexample: the claim that every computation in the
notebooks is an import, a configuration-setting library call, or a
plot/print — with no algorithmic logic such as per-fold train/test
composition authored — fails on the code: the cross-validation notebook
itself authors the fold-composition loop (cell 11), which falls in none of
the claimed categories. -/
theorem notebooks_pure_glue_false :
    (allOps.all claimC2Category) = false
    ∧ Op.cvFoldLoop ∈ cvNotebook
    ∧ claimC2Category Op.cvFoldLoop = false := by
  decide

/-- Claim C2, amended: besides imports, configured library calls, plain
assignments and plotting/printing, the only algorithmic logic authored in
the notebooks is the `gp_predict` wrapper and the cross-validation
fold-composition loop; the latter merely composes each fold's test set as a
popped subset and its training set as the remaining subsets, out of shallow
copies, with all model training living in the imported library. -/
theorem notebooks_authored_logic :
    allOps.filter isAuthoredAlgorithm = [Op.defGpPredict, Op.cvFoldLoop]
    ∧ ∀ (l : List (List ℕ)) (i : Nat) (h : i < l.length),
        listPop l i = some (l.get ⟨i, h⟩, l.eraseIdx i) := by
  exact ⟨by decide, fun l i h => listPop_eq_get l i h⟩

/-- Witness for the amended claim C2 at a concrete split. -/
theorem notebooks_authored_logic_witness :
    listPop ([[1], [2, 3]] : List (List ℕ)) 1 = some ([2, 3], [[1]]) := by
  have h := notebooks_authored_logic.2 [[1], [2, 3]] 1 (by decide)
  simpa using h

/-- Claim C5, counterexample: the claim that the only file artifacts the
notebooks consume or produce are `.traj` files, `results_neb.csv`,
`evaluated_structures.traj` and the JSON-serialized k-fold split fails on
the code: the cross-validation notebook reads the ase-db database
`../../data/gadb.db`, and the ML-NEB notebook documents
`results_neb_interpolation.csv` as written alongside `results_neb.csv`. -/
theorem file_artifacts_exactly_claimed_false :
    claimC5check = false
    ∧ (⟨"../../data/gadb.db", FileMode.read⟩ : FileEffect) ∈ allFileEffects
    ∧ isClaimedArtifact ("../../data/gadb.db") = false
    ∧ (⟨"results_neb_interpolation.csv", FileMode.write⟩ : FileEffect) ∈ allFileEffects
    ∧ isClaimedArtifact ("results_neb_interpolation.csv") = false := by
  decide

/-- Claim C5, amended: every file artifact the notebooks consume or produce
is a `.traj` trajectory file, `results_neb.csv`,
`results_neb_interpolation.csv`, the JSON-serialized k-fold split
`kfoldSave.json`, or the ase-db database `../../data/gadb.db` read by the
cross-validation notebook; no other file is touched by the authored code. -/
theorem file_artifacts_amended :
    (allFileEffects.all fun e => amendedArtifact e.path) = true
    ∧ allFileEffects.length = 32 := by
  decide

/-- Claim C8: the ML-NEB notebook is a strictly sequential script: the slab
is constructed before the BFGS relaxations; the two BFGS relaxations run at
fmax = 0.01 and write `initial.traj` and `final.traj` respectively; every
write of an end-point trajectory precedes every `MLNEB` instantiation; the
first `MLNEB` instantiation precedes the first `.run()` call, which precedes
the first `plotneb` call; and each `MLNEB` instantiation is immediately
followed by its `.run()` call. -/
theorem mlneb_notebook_sequencing :
    allBefore (opIdxs isSlabBuild mlnebNotebook) (opIdxs isBFGSRun mlnebNotebook) = true
    ∧ bfgsRunData mlnebNotebook
        = [([("fmax", Value.float 1 2)], [⟨"initial.traj", FileMode.write⟩]),
           ([("fmax", Value.float 1 2)], [⟨"final.traj", FileMode.write⟩])]
    ∧ allBefore
        (opIdxs (fun o => writesPath ("initial.traj") o || writesPath ("final.traj") o) mlnebNotebook)
        (opIdxs isMLNEBConstruct mlnebNotebook) = true
    ∧ (opIdxs (writesPath ("initial.traj")) mlnebNotebook).length = 1
    ∧ (opIdxs (writesPath ("final.traj")) mlnebNotebook).length = 1
    ∧ mlnebNotebook.findIdx isMLNEBConstruct < mlnebNotebook.findIdx isMLNEBRun
    ∧ mlnebNotebook.findIdx isMLNEBRun < mlnebNotebook.findIdx isPlotNeb
    ∧ ((opIdxs isMLNEBConstruct mlnebNotebook).all fun i =>
        isMLNEBRun (mlnebNotebook.getD (i + 1) Op.printCall)) = true := by
  decide

/-- Claim C4: in each iteration `i` of the cross-validation loop, the test
sets passed to the prediction are exactly the `i`-th feature and target
subsets, the training sets are the concatenation of the remaining subsets in
original order, the training-set size is the total number of points minus
the size of subset `i`, and iterating `i` over `range (len fsplit)` makes
each subset the test set exactly once. -/
theorem cv_fold_composition (err : List α → List β → List α → List β → γ)
    (fsplit : List (List α)) (tsplit : List (List β)) (ys : List γ)
    (i : Nat) (hf : i < fsplit.length) (ht : i < tsplit.length) :
    cvStep err i ⟨fsplit, tsplit, ys⟩
      = some ⟨fsplit, tsplit,
          ys ++ [err ((fsplit.eraseIdx i).flatten) ((tsplit.eraseIdx i).flatten)
            (fsplit.get ⟨i, hf⟩) (tsplit.get ⟨i, ht⟩)]⟩
    ∧ ((fsplit.eraseIdx i).flatten).length
        = fsplit.flatten.length - (fsplit.get ⟨i, hf⟩).length
    ∧ (List.range fsplit.length).map (fun j => fsplit.getD j []) = fsplit := by
  refine ⟨?_, length_flatten_eraseIdx fsplit i hf, map_getD_range fsplit []⟩
  exact cvStep_eq err i ⟨fsplit, tsplit, ys⟩ hf ht

/-- Witness for claim C4 at a concrete two-fold split. -/
theorem cv_fold_composition_witness :
    cvStep
        (fun (a : List ℕ) (_ : List ℕ) (a2 : List ℕ) (_ : List ℕ) =>
          a.length + a2.length) 0
        (⟨[[1], [2, 3]], [[4], [5, 6]], []⟩ : CVState ℕ ℕ ℕ)
      = some ⟨[[1], [2, 3]], [[4], [5, 6]], [3]⟩
    ∧ (([[1], [2, 3]] : List (List ℕ)).eraseIdx 0).flatten.length = 2
    ∧ (List.range 2).map (fun j => ([[1], [2, 3]] : List (List ℕ)).getD j [])
        = [[1], [2, 3]] := by
  have h := cv_fold_composition
    (fun (a : List ℕ) (_ : List ℕ) (a2 : List ℕ) (_ : List ℕ) => a.length + a2.length)
    [[1], [2, 3]] [[4], [5, 6]] [] 0 (by decide) (by decide)
  exact ⟨h.1, h.2.1, h.2.2⟩

/-- Claim C7: the cross-validation loop pops only from shallow copies of the
split lists, so a completed run leaves `fsplit` and `tsplit` in the final
state exactly as they started, all subsets in their original order. -/
theorem cv_loop_preserves_splits (err : List α → List β → List α → List β → γ)
    (fsplit : List (List α)) (tsplit : List (List β)) (st' : CVState α β γ)
    (hrun : cvRun err fsplit tsplit = some st') :
    st'.fsplit = fsplit ∧ st'.tsplit = tsplit := by
  have h := cvFoldBind_some_inv err (List.range fsplit.length)
    ⟨fsplit, tsplit, []⟩ st' hrun
  exact ⟨h.1, h.2.1⟩

/-- Witness for claim C7 at a concrete two-fold split. -/
theorem cv_loop_preserves_splits_witness :
    (⟨[[0], [1, 2]], [[3], [4, 5]], [2, 1]⟩ : CVState ℕ ℕ ℕ).fsplit = [[0], [1, 2]]
    ∧ (⟨[[0], [1, 2]], [[3], [4, 5]], [2, 1]⟩ : CVState ℕ ℕ ℕ).tsplit = [[3], [4, 5]] :=
  cv_loop_preserves_splits
    (fun (a : List ℕ) (_ : List ℕ) (_ : List ℕ) (_ : List ℕ) => a.length)
    [[0], [1, 2]] [[3], [4, 5]] ⟨[[0], [1, 2]], [[3], [4, 5]], [2, 1]⟩ (by decide)

/-- Claim C9: after a completed cross-validation run, `y` holds exactly one
error value per subset, the printed averaged error `sum(y)/float(len(y))`
equals the arithmetic mean `sum(y)` divided by the number of subsets, and
the denominator is nonzero whenever the list of subsets is non-empty. -/
theorem averaged_error_is_mean (err : List α → List β → List α → List β → ℚ)
    (fsplit : List (List α)) (tsplit : List (List β)) (st' : CVState α β ℚ)
    (hrun : cvRun err fsplit tsplit = some st') :
    st'.y.length = fsplit.length
    ∧ averagedError st'.y = st'.y.sum / ((fsplit.length : ℚ))
    ∧ (fsplit ≠ [] → ((st'.y.length : ℚ)) ≠ 0) := by
  have h := cvFoldBind_some_inv err (List.range fsplit.length)
    ⟨fsplit, tsplit, []⟩ st' hrun
  obtain ⟨-, -, h3⟩ := h
  have hy : st'.y.length = fsplit.length := by simpa using h3
  refine ⟨hy, ?_, ?_⟩
  · unfold averagedError
    rw [hy]
  · intro hne
    have hz : fsplit.length ≠ 0 := fun hc => hne (List.length_eq_zero.mp hc)
    rw [hy]
    exact_mod_cast hz

/-- Witness for claim C9 at a concrete two-fold split with a constant error
oracle. -/
theorem averaged_error_is_mean_witness :
    ([2, 2] : List ℚ).length = 2
    ∧ averagedError [2, 2] = ([2, 2] : List ℚ).sum / (((2 : ℕ)) : ℚ)
    ∧ (([[0], [1]] : List (List ℕ)) ≠ [] → (((2 : ℕ)) : ℚ) ≠ 0) := by
  have h := averaged_error_is_mean
    (fun (_ : List ℕ) (_ : List ℕ) (_ : List ℕ) (_ : List ℕ) => (2 : ℚ))
    [[0], [1]] [[5], [6]] ⟨[[0], [1]], [[5], [6]], [2, 2]⟩ rfl
  exact ⟨h.1, h.2.1, h.2.2⟩
